import Mathlib

/-!
Shallow embedding of the zoom-overlay coordinator implemented in
`src/PAGridCustomizer/components/ImageWithZoom.tsx`.

The component keeps a module-level mutable object `globalZoomState`
(lines 23-28) holding which image source currently has its magnified
preview open, together with the `setShowZoom` state setter of the owning
component instance.  We model image sources (`src : string`) as `String`
and the identity of a stored `setShowZoom` callback as `Nat`; an
operation that may invoke stored callbacks returns, besides the new
state, the list of callbacks it invoked (each invocation in the source
passes the argument `false`).  Geometry (`calculateZoomPosition`,
`calculateZoomDimensions`) is embedded over `ℚ`, since JavaScript
numbers are used there only through `+`, `-`, `*`, `/`, `min`, `max`
and comparisons.
-/

/-- Global coordinator state, from the `GlobalZoomState` interface and the
`globalZoomState` object (lines 15-28 of `ImageWithZoom.tsx`).  The stored
`activeSetShowZoom` callback is modelled by its identity (`Nat`); the
`portalRoot` DOM element is modelled as an opaque presence flag. -/
structure GlobalZoomState where
  isZoomActive : Bool
  activeImageSrc : Option String
  activeSetShowZoom : Option Nat
  portalRoot : Option Unit
deriving DecidableEq

/-- The initial value of `globalZoomState` (lines 23-28): nothing active. -/
def initialGlobalZoomState : GlobalZoomState :=
  { isZoomActive := false, activeImageSrc := none, activeSetShowZoom := none,
    portalRoot := none }

/-- Initial value of a component's local `showZoom` state:
`useState(false)` at line 68. -/
def initialShowZoom : Bool := false

/-- The function `closeActiveZoom` (lines 31-37): if a close callback is
stored and a zoom is active, invoke the stored callback (with `false`) and
clear `isZoomActive` and `activeImageSrc`.  Note that the source does NOT
clear `activeSetShowZoom` here.  Returns the new state and the list of
invoked callbacks. -/
def closeActiveZoom (s : GlobalZoomState) : GlobalZoomState × List Nat :=
  match s.activeSetShowZoom with
  | some cb =>
      if s.isZoomActive then
        ({ s with isZoomActive := false, activeImageSrc := none }, [cb])
      else (s, [])
  | none => (s, [])

/-- Body of the global-state sync effect (lines 134-151), run for the
component with source `src`, state setter `setShowZoom`, and current local
`showZoom` value.  When showing: if a callback is stored for a different
source, invoke it; then record this component as the active one.  When not
showing: if this component is the recorded active one, clear all three
fields; otherwise do nothing (stale request, lines 145-150). -/
def syncZoomEffect (src : String) (setShowZoom : Nat) (showZoom : Bool)
    (s : GlobalZoomState) : GlobalZoomState × List Nat :=
  if showZoom then
    let calls : List Nat :=
      match s.activeSetShowZoom with
      | some oldSetShowZoom =>
          if s.activeImageSrc ≠ some src then [oldSetShowZoom] else []
      | none => []
    ({ s with isZoomActive := true, activeImageSrc := some src,
              activeSetShowZoom := some setShowZoom }, calls)
  else if s.activeImageSrc = some src then
    ({ s with isZoomActive := false, activeImageSrc := none,
              activeSetShowZoom := none }, [])
  else (s, [])

/-- The coordinator operation `requestShow(key, closeCallback)` of the spec:
its effect on the global state is the showing branch of the sync effect
(lines 135-144). -/
def requestShow (key : String) (closeCallback : Nat) (s : GlobalZoomState) :
    GlobalZoomState × List Nat :=
  syncZoomEffect key closeCallback true s

/-- The coordinator operation `requestHide(key)` of the spec: its effect on
the global state is the hiding branch of the sync effect (lines 145-150),
which never invokes a callback and does not depend on the caller's own
setter. -/
def requestHide (key : String) (s : GlobalZoomState) : GlobalZoomState :=
  if s.activeImageSrc = some key then
    { s with isZoomActive := false, activeImageSrc := none,
             activeSetShowZoom := none }
  else s

/-- The coordinator query `isActive(key)`: whether `activeImageSrc` records
`key` (the comparison `globalZoomState.activeImageSrc === src` used
throughout the source). -/
def isActive (key : String) (s : GlobalZoomState) : Bool :=
  s.activeImageSrc == some key

/-- The hiding branch of the sync effect coincides with `requestHide` and
invokes no callback, whatever setter identity the component holds. -/
theorem syncZoomEffect_false_eq_requestHide (key : String) (cb : Nat)
    (s : GlobalZoomState) :
    syncZoomEffect key cb false s = (requestHide key s, []) := by
  unfold syncZoomEffect requestHide
  by_cases h : s.activeImageSrc = some key <;> simp [h]

/-- Mutation performed by the toggle-close branch of `handleClick`
(lines 219-225): the component sets its own `showZoom` to `false` and
clears `isZoomActive` and `activeImageSrc`, leaving `activeSetShowZoom`
untouched. -/
def toggleCloseZoom (s : GlobalZoomState) : GlobalZoomState :=
  { s with isZoomActive := false, activeImageSrc := none }

/-- Unmount cleanup of the mount effect (lines 90-98): if the captured
`showZoom` is true and this source is the recorded active one, clear all
three coordinator fields.  Because the mount effect has an empty dependency
array (line 99), the cleanup closure captures `showZoom` from the first
render, i.e. the value `initialShowZoom` from `useState(false)` - not the
value current at unmount time. -/
def unmountCleanup (src : String) (capturedShowZoom : Bool)
    (s : GlobalZoomState) : GlobalZoomState :=
  if capturedShowZoom ∧ s.activeImageSrc = some src then
    { s with isZoomActive := false, activeImageSrc := none,
             activeSetShowZoom := none }
  else s

/-- Result of one run of `handleClick` (lines 204-248) for a component:
its new local `showZoom`, the new global state, the registered document
click listeners (by identity), and the invoked close callbacks. -/
structure ClickResult where
  showZoom : Bool
  zoom : GlobalZoomState
  docListeners : List Nat
  invoked : List Nat
deriving DecidableEq

/-- The click handler `handleClick` (lines 204-248) for the component with
source `src`, setter `setShowZoom`, current local `showZoom`, a freshly
created outside-click handler `freshListener`, the current global state and
the currently registered document click listeners.  If this image is
already showing its zoom, toggle it closed and return (lines 219-225),
without touching the listeners.  Otherwise close any other open zoom,
show this one, and (in the deferred `setTimeout` body, lines 234-247)
remove the fresh handler - a no-op, since it was just created and has
never been registered - and register it. -/
def handleClick (src : String) (setShowZoom : Nat) (showZoom : Bool)
    (freshListener : Nat) (s : GlobalZoomState) (docListeners : List Nat) :
    ClickResult :=
  if showZoom ∧ s.activeImageSrc = some src then
    { showZoom := false, zoom := toggleCloseZoom s,
      docListeners := docListeners, invoked := [] }
  else
    let closed := closeActiveZoom s
    { showZoom := true, zoom := closed.1,
      docListeners := (docListeners.filter (fun l => l ≠ freshListener))
        ++ [freshListener],
      invoked := closed.2 }

/-- The deferred outside-click handler `handleGlobalClick` (lines 235-242),
fired on a document click: when the click target lies outside every zoom
container it calls `setShowZoom(false)` and removes itself from the
document listeners; otherwise it does nothing and stays registered.
Returns whether the close was invoked, and the remaining listeners. -/
def handleGlobalClick (listenerId : Nat) (targetOutside : Bool)
    (docListeners : List Nat) : Bool × List Nat :=
  if targetOutside then
    (true, docListeners.filter (fun l => l ≠ listenerId))
  else (false, docListeners)

/-- A DOM rectangle as produced by `getBoundingClientRect`, restricted to
the fields the component reads (`top`, `left`, `width`, `height`; the
derived `right`). -/
structure Rect where
  top : ℚ
  left : ℚ
  width : ℚ
  height : ℚ
deriving DecidableEq

/-- The derived `right` edge of a DOM rectangle. -/
def Rect.right (r : Rect) : ℚ := r.left + r.width

/-- A width and height pair (image natural size, zoom window size, or
viewport size). -/
structure Size where
  width : ℚ
  height : ℚ
deriving DecidableEq

/-- A top and left position for the zoom container. -/
structure Position where
  top : ℚ
  left : ℚ
deriving DecidableEq

/-- The function `calculateZoomPosition` (lines 167-201).  The anchor
rectangle `rect` stands for `imageRef.current.getBoundingClientRect()`;
`previewSize` stands for the zoom window size used at lines 180-181 (the
measured `offsetWidth`/`offsetHeight` or the 280 default, already scaled by
0.7), passed in because it comes from a DOM measurement; `windowWidth` and
`windowHeight` stand for `window.innerWidth` and `window.innerHeight`.
Candidate position is to the right of the image (lines 175-176), then
clamped vertically (lines 184-187) and flipped or clamped horizontally
(lines 190-198). -/
def calculateZoomPosition (rect : Rect) (previewSize : Size)
    (windowWidth windowHeight : ℚ) : Position :=
  let top := rect.top
  let left := rect.right + 10
  let top :=
    if top + previewSize.height > windowHeight then
      max 10 (windowHeight - previewSize.height - 10)
    else top
  let left :=
    if left + previewSize.width > windowWidth then
      if rect.left > previewSize.width + 10 then
        rect.left - previewSize.width - 10
      else
        max 10 (windowWidth - previewSize.width - 10)
    else left
  { top := top, left := left }

/-- Reference definition following the spec's `computePlacement(anchorRect,
previewSize, viewport, margin)` algorithm word for word: candidate to the
right of the anchor, vertical clamp, horizontal flip-or-clamp, in that
order. -/
def computePlacementSpec (anchorRect : Rect) (previewSize : Size)
    (viewport : Size) (margin : ℚ) : Position :=
  let top := anchorRect.top
  let left := anchorRect.right + margin
  let top :=
    if top + previewSize.height > viewport.height then
      max margin (viewport.height - previewSize.height - margin)
    else top
  let left :=
    if left + previewSize.width > viewport.width then
      if anchorRect.left > previewSize.width + margin then
        anchorRect.left - previewSize.width - margin
      else
        max margin (viewport.width - previewSize.width - margin)
    else left
  { top := top, left := left }

/-- The function `calculateZoomDimensions` (lines 251-273).  `imageSize`
stands for the component's `imageSize` state (the loaded image's natural
dimensions, `{width: 0, height: 0}` until the load completes);
`windowWidth` and `windowHeight` stand for `window.innerWidth` and
`window.innerHeight`.  Defaults are 400 by 400; when both natural
dimensions are positive, the long axis keeps 400 and the other shrinks by
the aspect ratio, and both results are capped at 0.8 of the corresponding
window dimension (the caps are inside the positive-dimensions branch). -/
def calculateZoomDimensions (imageSize : Size)
    (windowWidth windowHeight : ℚ) : Size :=
  if imageSize.width > 0 ∧ imageSize.height > 0 then
    let aspectRatio := imageSize.width / imageSize.height
    let zoomWidth := if aspectRatio > 1 then (400 : ℚ) else 400 * aspectRatio
    let zoomHeight := if aspectRatio > 1 then 400 / aspectRatio else (400 : ℚ)
    { width := min zoomWidth (windowWidth * 0.8),
      height := min zoomHeight (windowHeight * 0.8) }
  else
    { width := 400, height := 400 }

/-- Reference definition following the spec's
`computePreviewDimensions(naturalSize, baseWidth=400, baseHeight=400,
maxViewportFraction=0.8)`: fit the aspect ratio inside the 400 by 400 base
box (landscape shrinks height, portrait shrinks width), then cap both
dimensions at 0.8 of the viewport; when `naturalSize` is unknown, return
the base square unscaled. -/
def computePreviewDimensionsSpec (naturalSize : Option Size)
    (viewport : Size) : Size :=
  match naturalSize with
  | none => { width := 400, height := 400 }
  | some ns =>
      let aspect := ns.width / ns.height
      let fittedWidth := if aspect > 1 then (400 : ℚ) else 400 * aspect
      let fittedHeight := if aspect > 1 then 400 / aspect else (400 : ℚ)
      { width := min fittedWidth (viewport.width * 0.8),
        height := min fittedHeight (viewport.height * 0.8) }

/-- C1: Exclusivity of the active preview.  For distinct keys `k1` and
`k2` with close callbacks `c1` and `c2`, `requestShow k1 c1` from the
initial state invokes no callback, the subsequent `requestShow k2 c2`
invokes exactly `c1` (once), and afterwards `isActive k1` is false,
`isActive k2` is true, and the coordinator records `k2` as the single
active key. -/
theorem requestShow_exclusivity (k1 k2 : String) (c1 c2 : Nat)
    (h : k1 ≠ k2) :
    (requestShow k1 c1 initialGlobalZoomState).2 = [] ∧
    (requestShow k2 c2 (requestShow k1 c1 initialGlobalZoomState).1).2
      = [c1] ∧
    isActive k1
      (requestShow k2 c2 (requestShow k1 c1 initialGlobalZoomState).1).1
      = false ∧
    isActive k2
      (requestShow k2 c2 (requestShow k1 c1 initialGlobalZoomState).1).1
      = true ∧
    (requestShow k2 c2
      (requestShow k1 c1 initialGlobalZoomState).1).1.activeImageSrc
      = some k2 := by
  have h2 : k2 ≠ k1 := Ne.symm h
  simp [requestShow, syncZoomEffect, initialGlobalZoomState, isActive, h, h2]

/-- Witness for `requestShow_exclusivity` at keys "a", "b" and callbacks
1, 2. -/
theorem requestShow_exclusivity_witness :
    ("a" : String) ≠ "b" ∧
    ((requestShow "a" 1 initialGlobalZoomState).2 = [] ∧
     (requestShow "b" 2 (requestShow "a" 1 initialGlobalZoomState).1).2
       = [1] ∧
     isActive "a"
       (requestShow "b" 2 (requestShow "a" 1 initialGlobalZoomState).1).1
       = false ∧
     isActive "b"
       (requestShow "b" 2 (requestShow "a" 1 initialGlobalZoomState).1).1
       = true ∧
     (requestShow "b" 2
       (requestShow "a" 1 initialGlobalZoomState).1).1.activeImageSrc
       = some "b") :=
  ⟨by decide, requestShow_exclusivity "a" "b" 1 2 (by decide)⟩

/-- C2: Safe stale hide.  In any state where `k2` is the active key,
`requestHide k1` with `k1 ≠ k2` leaves the coordinator state unchanged:
`activeImageSrc` remains `k2` and the stored close callback is
untouched. -/
theorem requestHide_stale_noop (k1 k2 : String) (s : GlobalZoomState)
    (hact : s.activeImageSrc = some k2) (hne : k1 ≠ k2) :
    requestHide k1 s = s ∧
    (requestHide k1 s).activeImageSrc = some k2 ∧
    (requestHide k1 s).activeSetShowZoom = s.activeSetShowZoom := by
  have hcond : ¬ s.activeImageSrc = some k1 := by
    rw [hact]
    simp
    exact Ne.symm hne
  have h1 : requestHide k1 s = s := by simp [requestHide, hcond]
  exact ⟨h1, by rw [h1, hact], by rw [h1]⟩

/-- Witness for `requestHide_stale_noop`: key "b" active with stored
callback 2, stale hide request for "a". -/
theorem requestHide_stale_noop_witness :
    ({ isZoomActive := true, activeImageSrc := some "b",
       activeSetShowZoom := some 2, portalRoot := none } :
        GlobalZoomState).activeImageSrc = some "b" ∧
    ("a" : String) ≠ "b" ∧
    (requestHide "a"
       { isZoomActive := true, activeImageSrc := some "b",
         activeSetShowZoom := some 2, portalRoot := none }
       = { isZoomActive := true, activeImageSrc := some "b",
           activeSetShowZoom := some 2, portalRoot := none } ∧
     (requestHide "a"
        { isZoomActive := true, activeImageSrc := some "b",
          activeSetShowZoom := some 2,
          portalRoot := none }).activeImageSrc = some "b" ∧
     (requestHide "a"
        { isZoomActive := true, activeImageSrc := some "b",
          activeSetShowZoom := some 2,
          portalRoot := none }).activeSetShowZoom
       = ({ isZoomActive := true, activeImageSrc := some "b",
            activeSetShowZoom := some 2, portalRoot := none } :
             GlobalZoomState).activeSetShowZoom) :=
  ⟨rfl, by decide, requestHide_stale_noop "a" "b" _ rfl (by decide)⟩

/-- C3: Hide clears both fields.  From any starting state, `requestShow k
c` followed by `requestHide k` leaves `isActive k` false and both the
active key and the stored close callback null. -/
theorem requestHide_clears (k : String) (c : Nat) (s : GlobalZoomState) :
    isActive k (requestHide k (requestShow k c s).1) = false ∧
    (requestHide k (requestShow k c s).1).activeImageSrc = none ∧
    (requestHide k (requestShow k c s).1).activeSetShowZoom = none := by
  simp [requestShow, syncZoomEffect, requestHide, isActive]

/-- C4: Idempotent same-key show.  Once `requestShow k c` has made `k`
active with callback `c`, running `requestShow k c` again returns the very
same state, invokes no callback, and `isActive k` stays true. -/
theorem requestShow_idempotent (k : String) (c : Nat)
    (s : GlobalZoomState) :
    requestShow k c (requestShow k c s).1 = ((requestShow k c s).1, []) ∧
    isActive k (requestShow k c (requestShow k c s).1).1 = true := by
  cases s
  simp [requestShow, syncZoomEffect, isActive]

/-- C5: The source's placement function agrees with the spec's
`computePlacement` algorithm at margin 10, for every anchor rectangle,
preview size and viewport; in particular the vertical clamp and the
flip-or-clamp horizontal overflow handling are exactly the spec's. -/
theorem calculateZoomPosition_matches_spec (rect : Rect)
    (previewSize : Size) (viewport : Size) :
    calculateZoomPosition rect previewSize viewport.width viewport.height
      = computePlacementSpec rect previewSize viewport 10 := by
  rfl

/-- C6: Right-preferred placement when nothing overflows: the anchor at
top 100, left 100, width 50, height 50 in a 1000 by 800 viewport with a
200 by 200 preview is placed at top 100, left 160 (anchor right edge 150
plus margin 10). -/
theorem placement_right_preferred :
    calculateZoomPosition
      { top := 100, left := 100, width := 50, height := 50 }
      { width := 200, height := 200 } 1000 800
      = { top := 100, left := 160 } := by
  norm_num [calculateZoomPosition, Rect.right]

/-- C7: The source's zoom-dimension function agrees with the spec's
`computePreviewDimensions` reference definition, with the source's
positive-dimensions test deciding whether the natural size is known; and
in particular a 800 by 400 natural size with an unconstraining 10000 by
10000 window yields width 400, height 200. -/
theorem calculateZoomDimensions_matches_spec :
    (∀ (ns : Size) (viewport : Size),
      calculateZoomDimensions ns viewport.width viewport.height
        = computePreviewDimensionsSpec
            (if ns.width > 0 ∧ ns.height > 0 then some ns else none)
            viewport) ∧
    calculateZoomDimensions { width := 800, height := 400 } 10000 10000
      = { width := 400, height := 200 } := by
  constructor
  · intro ns viewport
    by_cases h : ns.width > 0 ∧ ns.height > 0 <;>
      simp [calculateZoomDimensions, computePreviewDimensionsSpec, h]
  · norm_num [calculateZoomDimensions, min_def]

/-- C8: The unmount cleanup evaluated as the source runs it.  The mount
effect's dependency array is empty, so the cleanup closure's `showZoom` is
the first-render value `initialShowZoom = false`; hence the cleanup is the
identity on the global state for every source.  In particular, when the
unmounting component with source "img" owns the active preview, the
coordinator still records "img" afterwards, instead of being cleared. -/
theorem unmountCleanup_never_clears :
    (∀ (src : String) (s : GlobalZoomState),
      unmountCleanup src initialShowZoom s = s) ∧
    unmountCleanup "img" initialShowZoom
      { isZoomActive := true, activeImageSrc := some "img",
        activeSetShowZoom := some 1, portalRoot := none }
      = { isZoomActive := true, activeImageSrc := some "img",
          activeSetShowZoom := some 1, portalRoot := none } ∧
    (unmountCleanup "img" initialShowZoom
      { isZoomActive := true, activeImageSrc := some "img",
        activeSetShowZoom := some 1,
        portalRoot := none }).activeImageSrc = some "img" := by
  refine ⟨fun src s => ?_, by decide, by decide⟩
  simp [unmountCleanup, initialShowZoom]

/-- C9: Leak of the outside-click listener.  Trace: component "k" (setter
1) is clicked while idle, registering listener 10 and opening its zoom
(sync effect); it is then clicked again (fresh handler 11), which takes
the toggle-close branch.  Afterwards the preview is closed (local
`showZoom` false, `isZoomActive` false) yet listener 10 from the open is
still registered, so a state with a closed preview and a live
outside-click listener is reachable. -/
theorem outsideClick_listener_leak :
    (handleClick "k" 1 true 11
      (syncZoomEffect "k" 1
        (handleClick "k" 1 false 10 initialGlobalZoomState []).showZoom
        (handleClick "k" 1 false 10 initialGlobalZoomState []).zoom).1
      (handleClick "k" 1 false 10
        initialGlobalZoomState []).docListeners).showZoom = false ∧
    (handleClick "k" 1 true 11
      (syncZoomEffect "k" 1
        (handleClick "k" 1 false 10 initialGlobalZoomState []).showZoom
        (handleClick "k" 1 false 10 initialGlobalZoomState []).zoom).1
      (handleClick "k" 1 false 10
        initialGlobalZoomState []).docListeners).zoom.isZoomActive
      = false ∧
    (handleClick "k" 1 true 11
      (syncZoomEffect "k" 1
        (handleClick "k" 1 false 10 initialGlobalZoomState []).showZoom
        (handleClick "k" 1 false 10 initialGlobalZoomState []).zoom).1
      (handleClick "k" 1 false 10
        initialGlobalZoomState []).docListeners).docListeners = [10] := by
  decide

/-- One atomic mutation of `globalZoomState` performed by the source: the
supersession close (`closeActiveZoom`), a run of the global-state sync
effect, the unmount cleanup, or the toggle-close branch of
`handleClick`. -/
inductive CoordStep : GlobalZoomState → GlobalZoomState → Prop where
  | close (s : GlobalZoomState) : CoordStep s (closeActiveZoom s).1
  | sync (src : String) (cb : Nat) (showZoom : Bool) (s : GlobalZoomState) :
      CoordStep s (syncZoomEffect src cb showZoom s).1
  | cleanup (src : String) (captured : Bool) (s : GlobalZoomState) :
      CoordStep s (unmountCleanup src captured s)
  | toggle (s : GlobalZoomState) : CoordStep s (toggleCloseZoom s)

/-- States of `globalZoomState` reachable from its initial value through
the mutations the source performs. -/
inductive ReachableZoomState : GlobalZoomState → Prop where
  | init : ReachableZoomState initialGlobalZoomState
  | step (s t : GlobalZoomState) : ReachableZoomState s → CoordStep s t →
      ReachableZoomState t

/-- Lockstep of the two flags, as a Bool equation. -/
def ZoomStateLockstep (s : GlobalZoomState) : Prop :=
  s.isZoomActive = s.activeImageSrc.isSome

theorem closeActiveZoom_lockstep (s : GlobalZoomState)
    (h : ZoomStateLockstep s) : ZoomStateLockstep (closeActiveZoom s).1 := by
  unfold ZoomStateLockstep at h ⊢
  unfold closeActiveZoom
  cases hcb : s.activeSetShowZoom <;> simp [hcb, h] <;> split <;> simp [h]

theorem syncZoomEffect_lockstep (src : String) (cb : Nat) (showZoom : Bool)
    (s : GlobalZoomState) (h : ZoomStateLockstep s) :
    ZoomStateLockstep (syncZoomEffect src cb showZoom s).1 := by
  unfold ZoomStateLockstep at h ⊢
  unfold syncZoomEffect
  cases showZoom <;> simp [h] <;> split <;> simp [h]

theorem unmountCleanup_lockstep (src : String) (captured : Bool)
    (s : GlobalZoomState) (h : ZoomStateLockstep s) :
    ZoomStateLockstep (unmountCleanup src captured s) := by
  unfold ZoomStateLockstep at h ⊢
  unfold unmountCleanup
  split <;> simp [h]

theorem toggleCloseZoom_lockstep (s : GlobalZoomState)
    (h : ZoomStateLockstep s) : ZoomStateLockstep (toggleCloseZoom s) := by
  unfold ZoomStateLockstep at h ⊢
  unfold toggleCloseZoom
  simp

/-- C10: Lockstep invariant of the global coordinator state.  In every
state reachable through the mutations the source performs (supersession
close, sync effect, unmount cleanup, toggle close), `isZoomActive` is true
exactly when `activeImageSrc` is non-null. -/
theorem globalZoomState_lockstep (s : GlobalZoomState)
    (h : ReachableZoomState s) :
    s.isZoomActive = true ↔ s.activeImageSrc ≠ none := by
  have key : ZoomStateLockstep s := by
    induction h with
    | init => rfl
    | step s t hs hstep ih =>
        cases hstep with
        | close => exact closeActiveZoom_lockstep s ih
        | sync src cb showZoom =>
            exact syncZoomEffect_lockstep src cb showZoom s ih
        | cleanup src captured =>
            exact unmountCleanup_lockstep src captured s ih
        | toggle => exact toggleCloseZoom_lockstep s ih
  rw [ZoomStateLockstep] at key
  rw [key, Option.isSome_iff_ne_none]

/-- Witness for `globalZoomState_lockstep`: a reachable state with an
active preview, obtained by one sync-effect step from the initial
state. -/
theorem globalZoomState_lockstep_witness :
    ReachableZoomState (syncZoomEffect "k" 1 true initialGlobalZoomState).1 ∧
    ((syncZoomEffect "k" 1 true
        initialGlobalZoomState).1.isZoomActive = true ↔
     (syncZoomEffect "k" 1 true
        initialGlobalZoomState).1.activeImageSrc ≠ none) :=
  ⟨ReachableZoomState.step initialGlobalZoomState _ ReachableZoomState.init
      (CoordStep.sync "k" 1 true initialGlobalZoomState),
   globalZoomState_lockstep _
     (ReachableZoomState.step initialGlobalZoomState _
       ReachableZoomState.init
       (CoordStep.sync "k" 1 true initialGlobalZoomState))⟩
